import Mathlib

/-!
Formal model of `compare_ssim.py` (opc-visual-regtest).

A shallow embedding of the SSIM visual-regression comparison script.
Pixel intensities and SSIM scores are modelled as rationals; the external
SSIM metric (`skimage.metrics.structural_similarity`) is an abstract
parameter, since it is third-party code.  Python exceptions are modelled
with an explicit `Except`-passing style: `Except (Exc × FileReport) FileReport`
for the per-file worker, where the error component carries the exception
together with the report object as mutated up to the raise point (Python
mutates the shared `report` in place, so the handler in `process_one_file`
sees the pages appended before the exception).
-/

set_option autoImplicit false

/-- Cap for SSIM comparison side length (`_MAX_SSIM_SIDE = 4000`). -/
def MAX_SSIM_SIDE : Nat := 4000

/-- A grayscale page image: height, width, and pixel intensities
(`px i j` is row `i`, column `j`). -/
structure GrayImage where
  h : Nat
  w : Nat
  px : Nat → Nat → ℚ

/-- The output dimensions of `_load_gray`: if either side exceeds
`_MAX_SSIM_SIDE`, both sides are scaled by `_MAX_SSIM_SIDE / max w h`
and truncated to integers (`int(w * scale)` = floor); otherwise the
image keeps its size.  (Idealised in exact arithmetic.) -/
def _load_gray_size (w h : Nat) : Nat × Nat :=
  if MAX_SSIM_SIDE < w ∨ MAX_SSIM_SIDE < h then
    (w * MAX_SSIM_SIDE / max w h, h * MAX_SSIM_SIDE / max w h)
  else
    (w, h)

/-- White-padding of an image to a target shape `H × W`, aligned at the
top-left origin: `a_pad = np.ones((h, w)) * 255; a_pad[:a.h, :a.w] = a`. -/
def padTo (g : GrayImage) (H W : Nat) : GrayImage :=
  { h := H, w := W,
    px := fun i j => if i < g.h ∧ j < g.w then g.px i j else 255 }

/-- The scorer `compute_ssim`, with the external SSIM metric abstracted as `ssimFn`
(a total function on pairs of images; the script only ever applies it to
equal-shaped arrays, which is exactly what the padding branch restores).
If the shapes differ, both images are padded with white to the
element-wise maximum of the two shapes before scoring. -/
def compute_ssim (ssimFn : GrayImage → GrayImage → ℚ) (a b : GrayImage) : ℚ :=
  if a.h = b.h ∧ a.w = b.w then
    ssimFn a b
  else
    ssimFn (padTo a (max a.h b.h) (max a.w b.w)) (padTo b (max a.h b.h) (max a.w b.w))

/-- The `PageResult` dataclass. -/
structure PageResult where
  page : Nat
  ssim_score : ℚ
  orig_png : String
  rt_png : String
  diff_png : String
deriving Repr, DecidableEq

/-- The `FileReport` dataclass, with its Python field defaults. -/
structure FileReport where
  name : String
  ok : Bool := true
  error : String := ""
  pages : List PageResult := []
  min_ssim : ℚ := 1
  mean_ssim : ℚ := 1
deriving Repr, DecidableEq

/-- Python exceptions relevant to the script, carrying `str(exc)`.
`str(MemoryError())` is empty, so `memoryError` carries no message. -/
inductive Exc where
  | memoryError : Exc
  | calledProcessError : String → Exc
  | other : String → Exc
deriving Repr, DecidableEq

/-- Value of `str(exc)` for the modelled exceptions. -/
def Exc.strMsg : Exc → String
  | .memoryError => ""
  | .calledProcessError m => m
  | .other m => m

/-- The message stored by `process_one_file`'s handlers:
`except MemoryError` stores a fixed message, `except Exception as exc`
stores `str(exc)`. -/
def handler_error : Exc → String
  | .memoryError => "out of memory (image too large)"
  | e => e.strMsg

/-- The external world seen while processing one document: whether each
side's PDF exists, the outcome of each `pdf_to_pngs` call (a list of page
image paths, or an exception), and the outcome of one loop iteration on an
overlapping page index (`compute_ssim` plus saving/copying the three
images: a score, or an exception). -/
structure FileEnv where
  origPdfExists : Bool
  rtPdfExists : Bool
  origRender : Except Exc (List String)
  rtRender : Except Exc (List String)
  step : Nat → Except Exc ℚ

/-- Python expression `min(scores) if scores else 1.0`. -/
def minScores : List ℚ → ℚ
  | [] => 1
  | q :: qs => qs.foldl min q

/-- Python expression `float(np.mean(scores)) if scores else 1.0`. -/
def meanScores (s : List ℚ) : ℚ :=
  if s = [] then 1 else s.sum / s.length

/-- The per-page loop of `_process_one_file_inner`
(`for idx in range(max_pages)`), with `fuel` the number of remaining
indices and `pages`, `scores` the accumulators (`report.pages`,
`scores`).  An exception raised by an iteration aborts the loop carrying
the pages appended so far (the mutated `report.pages`). -/
def pageLoop (pa pb : List String) (step : Nat → Except Exc ℚ) :
    Nat → Nat → List PageResult → List ℚ →
    Except (Exc × List PageResult) (List PageResult × List ℚ)
  | _, 0, pages, scores => .ok (pages, scores)
  | idx, fuel + 1, pages, scores =>
    if pa.length ≤ idx ∨ pb.length ≤ idx then
      pageLoop pa pb step (idx + 1) fuel
        (pages ++ [{ page := idx + 1, ssim_score := 0,
                     orig_png := pa.getD idx "", rt_png := pb.getD idx "",
                     diff_png := "" }])
        (scores ++ [0])
    else
      match step idx with
      | .error e => .error (e, pages)
      | .ok q =>
        pageLoop pa pb step (idx + 1) fuel
          (pages ++ [{ page := idx + 1, ssim_score := q,
                       orig_png := "orig-" ++ toString (idx + 1) ++ ".png",
                       rt_png := "rt-" ++ toString (idx + 1) ++ ".png",
                       diff_png := "diff-" ++ toString (idx + 1) ++ ".png" }])
          (scores ++ [q])

/-- The worker `_process_one_file_inner`.  Returns `.ok report` when the Python
function returns normally and `.error (exc, report)` when an exception
escapes it, with `report` the object as mutated so far.  The `try` around
the two `pdf_to_pngs` calls catches only `subprocess.CalledProcessError`. -/
def _process_one_file_inner (report : FileReport) (env : FileEnv) :
    Except (Exc × FileReport) FileReport :=
  if env.origPdfExists = false then
    .ok { report with
          ok := false
          error := "original PDF missing (LibreOffice conversion likely failed)" }
  else if env.rtPdfExists = false then
    .ok { report with
          ok := false
          error := "roundtrip PDF missing (LibreOffice conversion likely failed)" }
  else
    match env.origRender with
    | .error (.calledProcessError m) =>
      .ok { report with ok := false, error := "pdftoppm failed: " ++ m }
    | .error e => .error (e, report)
    | .ok pa =>
      match env.rtRender with
      | .error (.calledProcessError m) =>
        .ok { report with ok := false, error := "pdftoppm failed: " ++ m }
      | .error e => .error (e, report)
      | .ok pb =>
        if pa = [] then
          .ok { report with ok := false, error := "original PDF produced no pages" }
        else if pb = [] then
          .ok { report with ok := false, error := "roundtrip PDF produced no pages" }
        else
          match pageLoop pa pb env.step 0 (max pa.length pb.length) [] [] with
          | .error (e, pgs) => .error (e, { report with pages := pgs })
          | .ok (pgs, scores) =>
            .ok { report with
                  pages := pgs
                  min_ssim := minScores scores
                  mean_ssim := meanScores scores }

/-- The worker wrapper `process_one_file`: runs the inner worker and converts any escaping
exception into a failed report (`except MemoryError` / `except Exception`). -/
def process_one_file (name : String) (env : FileEnv) : FileReport :=
  match _process_one_file_inner { name := name } env with
  | .ok r => r
  | .error (e, r) => { r with ok := false, error := handler_error e }

/-- One entry of `manifest.json`: `{name, ok}`. -/
structure ManifestEntry where
  name : String
  ok : Bool
deriving Repr, DecidableEq

/-- The batch's external world: the manifest and, per document name, the
per-file environment. -/
structure BatchEnv where
  manifest : List ManifestEntry
  fileEnv : String → FileEnv

/-- Python set `failed_rt` of names of manifest entries with `ok` false. -/
def failed_rt (manifest : List ManifestEntry) : List String :=
  (manifest.filter (fun e => !e.ok)).map ManifestEntry.name

/-- Python list `compare_names = [n for n in file_names if n not in failed_rt]`. -/
def compare_names (manifest : List ManifestEntry) : List String :=
  (manifest.map ManifestEntry.name).filter
    (fun n => !(decide (n ∈ failed_rt manifest)))

/-- Step 2 of `main`: pre-populate a failed report for every manifest
entry marked not ok, then run the per-file worker on the remaining names
in order.  The `--workers` argument is parsed by `main` but never used:
the comparison loop is sequential, so the parameter is dead. -/
def runBatch (workers : Nat) (env : BatchEnv) : List FileReport :=
  let file_names := env.manifest.map ManifestEntry.name
  let preFailed :=
    (file_names.filter (fun n => decide (n ∈ failed_rt env.manifest))).map
      (fun n => { name := n, ok := false, error := "roundtrip failed (Go)" })
  let _ := workers
  preFailed ++ (compare_names env.manifest).map
    (fun n => process_one_file n (env.fileEnv n))

/-- The exit decision at the end of `main`:
`below = [r for r in reports if r.ok and r.min_ssim < threshold]`,
`errors = [r for r in reports if not r.ok]`, and `sys.exit(1)` when
either is non-empty; exit status 0 otherwise. -/
def exitCode (reports : List FileReport) (threshold : ℚ) : Nat :=
  if reports.filter (fun r => r.ok && decide (r.min_ssim < threshold)) ≠ [] ∨
     reports.filter (fun r => !r.ok) ≠ [] then 1 else 0

/-- Strict order on the HTML sort key `(r.ok, r.min_ssim)`
(Python: `False < True`, then `min_ssim` ascending). -/
def reportKeyLt (r s : FileReport) : Bool :=
  (!r.ok && s.ok) || ((r.ok == s.ok) && decide (r.min_ssim < s.min_ssim))

/-- Stable insertion for the report sort. -/
def insertReport (r : FileReport) : List FileReport → List FileReport
  | [] => [r]
  | s :: rest => if reportKeyLt r s then r :: s :: rest else s :: insertReport r rest

/-- Python `sorted(reports, key=lambda r: (r.ok, r.min_ssim))` (stable insertion
sort: each report goes after all already-placed reports whose key is not
strictly greater). -/
def sortReports (reports : List FileReport) : List FileReport :=
  reports.foldl (fun acc r => insertReport r acc) []

/-- The PageResult built by one loop iteration at index `i`, given the
score function `f` for overlapping indices: the zero-score mismatch
entry (with `getD`-style references, empty for the missing side) when
`i` is out of range on either side, and a scored entry with the saved
image paths otherwise. -/
def mkPage (pa pb : List String) (f : Nat → ℚ) (i : Nat) : PageResult :=
  if pa.length ≤ i ∨ pb.length ≤ i then
    { page := i + 1, ssim_score := 0,
      orig_png := pa.getD i "", rt_png := pb.getD i "", diff_png := "" }
  else
    { page := i + 1, ssim_score := f i,
      orig_png := "orig-" ++ toString (i + 1) ++ ".png",
      rt_png := "rt-" ++ toString (i + 1) ++ ".png",
      diff_png := "diff-" ++ toString (i + 1) ++ ".png" }

/-- The score appended by one loop iteration at index `i`: 0 for an
index missing on either side, `f i` for an overlapping index. -/
def scoreAt (pa pb : List String) (f : Nat → ℚ) (i : Nat) : ℚ :=
  if pa.length ≤ i ∨ pb.length ≤ i then 0 else f i

/-- The score delivered by a successful step, 0 for a failing one. -/
def stepVal (step : Nat → Except Exc ℚ) (i : Nat) : ℚ :=
  match step i with
  | .ok q => q
  | .error _ => 0

/-- A concrete 2x3 test image. -/
def imgA : GrayImage := { h := 2, w := 3, px := fun _ _ => 7 }

/-- A concrete 4x2 test image. -/
def imgB : GrayImage := { h := 4, w := 2, px := fun _ _ => 9 }

/-- A concrete SSIM metric stub returning 1/2. -/
def ssimHalf : GrayImage → GrayImage → ℚ := fun _ _ => 1 / 2

/-- Per-file environment where page 1 compares fine and the iteration on
page 2 raises a generic exception with an empty message. -/
def C2cexEnv : FileEnv :=
  { origPdfExists := true
    rtPdfExists := true
    origRender := .ok ["o1.png", "o2.png"]
    rtRender := .ok ["r1.png", "r2.png"]
    step := fun idx => if idx = 0 then .ok 1 else .error (.other "") }

/-- Per-file environment where the original PDF is missing. -/
def C2missingEnv : FileEnv :=
  { origPdfExists := false
    rtPdfExists := true
    origRender := .ok []
    rtRender := .ok []
    step := fun _ => .ok 1 }

/-- Per-file environment rendering two original pages but only one
roundtrip page, with every comparison scoring 1. -/
def C4wEnv : FileEnv :=
  { origPdfExists := true
    rtPdfExists := true
    origRender := .ok ["o1.png", "o2.png"]
    rtRender := .ok ["r1.png"]
    step := fun _ => .ok 1 }

/-- Batch environment whose manifest marks its only document failed. -/
def C6cexBatch : BatchEnv :=
  { manifest := [{ name := "A.docx", ok := false }]
    fileEnv := fun _ => C2missingEnv }

/-- Per-file environment where rendering the original PDF fails with a
`CalledProcessError` carrying message "boom". -/
def C7cexEnv : FileEnv :=
  { origPdfExists := true
    rtPdfExists := true
    origRender := .error (.calledProcessError "boom")
    rtRender := .ok ["r1.png"]
    step := fun _ => .ok 1 }

/-- Per-file environment where rendering raises MemoryError. -/
def C7memEnv : FileEnv :=
  { origPdfExists := true
    rtPdfExists := true
    origRender := .error .memoryError
    rtRender := .ok ["r1.png"]
    step := fun _ => .ok 1 }

theorem pageLoop_eq_ok (pa pb : List String) (step : Nat → Except Exc ℚ) (f : Nat → ℚ) :
    ∀ (fuel idx : Nat) (pages : List PageResult) (scores : List ℚ),
      (∀ i, idx ≤ i → i < idx + fuel → i < pa.length → i < pb.length →
        step i = .ok (f i)) →
      pageLoop pa pb step idx fuel pages scores =
        .ok (pages ++ (List.range' idx fuel).map (mkPage pa pb f),
             scores ++ (List.range' idx fuel).map (scoreAt pa pb f)) := by
  intro fuel
  induction fuel with
  | zero =>
    intro idx pages scores _
    simp [pageLoop]
  | succ n ih =>
    intro idx pages scores hstep
    have hrec : ∀ i, idx + 1 ≤ i → i < idx + 1 + n → i < pa.length →
        i < pb.length → step i = .ok (f i) :=
      fun i h1 h2 h3 h4 => hstep i (by omega) (by omega) h3 h4
    by_cases hmis : pa.length ≤ idx ∨ pb.length ≤ idx
    · have hmk : mkPage pa pb f idx =
          { page := idx + 1, ssim_score := 0,
            orig_png := pa.getD idx "", rt_png := pb.getD idx "", diff_png := "" } := by
        rw [mkPage, if_pos hmis]
      have hsc : scoreAt pa pb f idx = 0 := by
        rw [scoreAt, if_pos hmis]
      rw [pageLoop, if_pos hmis,
        ih (idx + 1) _ _ hrec,
        List.range'_succ, List.map_cons, List.map_cons, hmk, hsc]
      simp only [List.append_assoc, List.singleton_append]
    · push_neg at hmis
      have hv : step idx = .ok (f idx) :=
        hstep idx (Nat.le_refl idx) (by omega) hmis.1 hmis.2
      have hmk : mkPage pa pb f idx =
          { page := idx + 1, ssim_score := f idx,
            orig_png := "orig-" ++ toString (idx + 1) ++ ".png",
            rt_png := "rt-" ++ toString (idx + 1) ++ ".png",
            diff_png := "diff-" ++ toString (idx + 1) ++ ".png" } := by
        rw [mkPage, if_neg (by omega)]
      have hsc : scoreAt pa pb f idx = f idx := by
        rw [scoreAt, if_neg (by omega)]
      rw [pageLoop, if_neg (by omega), hv]
      dsimp only
      rw [ih (idx + 1) _ _ hrec,
        List.range'_succ, List.map_cons, List.map_cons, hmk, hsc]
      simp only [List.append_assoc, List.singleton_append]

theorem pageLoop_ok_steps (pa pb : List String) (step : Nat → Except Exc ℚ) :
    ∀ (fuel idx : Nat) (pages : List PageResult) (scores : List ℚ)
      (out : List PageResult × List ℚ),
      pageLoop pa pb step idx fuel pages scores = .ok out →
      ∀ i, idx ≤ i → i < idx + fuel → i < pa.length → i < pb.length →
        step i = .ok (stepVal step i) := by
  intro fuel
  induction fuel with
  | zero =>
    intro idx pages scores out _ i h1 h2 _ _
    omega
  | succ n ih =>
    intro idx pages scores out h i h1 h2 h3 h4
    rw [pageLoop] at h
    by_cases hmis : pa.length ≤ idx ∨ pb.length ≤ idx
    · rw [if_pos hmis] at h
      rcases Nat.eq_or_lt_of_le h1 with he | hlt
      · omega
      · exact ih (idx + 1) _ _ _ h i (by omega) (by omega) h3 h4
    · rw [if_neg hmis] at h
      cases hstep : step idx with
      | error e =>
        rw [hstep] at h
        simp at h
      | ok q =>
        rw [hstep] at h
        dsimp only at h
        rcases Nat.eq_or_lt_of_le h1 with he | hlt
        · subst he
          have hval : stepVal step idx = q := by
            unfold stepVal
            rw [hstep]
          rw [hval]
          exact hstep
        · exact ih (idx + 1) _ _ _ h i (by omega) (by omega) h3 h4

theorem pageLoop_run (pa pb : List String) (step : Nat → Except Exc ℚ)
    (fuel : Nat) (pgs : List PageResult) (scs : List ℚ)
    (h : pageLoop pa pb step 0 fuel [] [] = .ok (pgs, scs)) :
    pgs = (List.range' 0 fuel).map (mkPage pa pb (stepVal step)) ∧
    scs = (List.range' 0 fuel).map (scoreAt pa pb (stepVal step)) := by
  have hsteps := pageLoop_ok_steps pa pb step fuel 0 [] [] _ h
  have heq := pageLoop_eq_ok pa pb step (stepVal step) fuel 0 [] []
    (fun i h1 h2 h3 h4 => hsteps i h1 (by omega) h3 h4)
  rw [h] at heq
  simp only [List.nil_append, Except.ok.injEq, Prod.mk.injEq] at heq
  exact heq

theorem foldl_min_le_init (l : List ℚ) : ∀ a : ℚ, l.foldl min a ≤ a := by
  induction l with
  | nil => intro a; exact le_refl a
  | cons q qs ih =>
    intro a
    calc (q :: qs).foldl min a = qs.foldl min (min a q) := rfl
      _ ≤ min a q := ih _
      _ ≤ a := min_le_left _ _

theorem foldl_min_le_mem (l : List ℚ) : ∀ (a x : ℚ), x ∈ l → l.foldl min a ≤ x := by
  induction l with
  | nil => intro a x hx; cases hx
  | cons q qs ih =>
    intro a x hx
    rcases List.mem_cons.mp hx with he | hm
    · calc (q :: qs).foldl min a = qs.foldl min (min a q) := rfl
        _ ≤ min a q := foldl_min_le_init qs _
        _ ≤ x := he ▸ min_le_right _ _
    · exact ih (min a q) x hm

theorem foldl_min_mem (l : List ℚ) : ∀ a : ℚ, l.foldl min a = a ∨ l.foldl min a ∈ l := by
  induction l with
  | nil => intro a; exact Or.inl rfl
  | cons q qs ih =>
    intro a
    rcases ih (min a q) with he | hm
    · rcases min_choice a q with h1 | h1
      · exact Or.inl (by rw [List.foldl_cons, he, h1])
      · refine Or.inr (List.mem_cons.mpr (Or.inl ?_))
        rw [List.foldl_cons, he, h1]
    · exact Or.inr (List.mem_cons.mpr (Or.inr hm))

theorem minScores_le_mem (s : List ℚ) (x : ℚ) (hx : x ∈ s) : minScores s ≤ x := by
  cases s with
  | nil => cases hx
  | cons q qs =>
    rcases List.mem_cons.mp hx with he | hm
    · exact he ▸ foldl_min_le_init qs q
    · exact foldl_min_le_mem qs q x hm

theorem minScores_mem (s : List ℚ) (h : s ≠ []) : minScores s ∈ s := by
  cases s with
  | nil => exact absurd rfl h
  | cons q qs =>
    rcases foldl_min_mem qs q with he | hm
    · exact List.mem_cons.mpr (Or.inl (by rw [minScores, he]))
    · exact List.mem_cons.mpr (Or.inr (by rw [minScores]; exact hm))

theorem minScores_eq_zero (s : List ℚ) (h0 : (0 : ℚ) ∈ s)
    (hnn : ∀ x ∈ s, 0 ≤ x) : minScores s = 0 :=
  le_antisymm (minScores_le_mem s 0 h0)
    (hnn _ (minScores_mem s (List.ne_nil_of_mem h0)))

theorem mkPage_page (pa pb : List String) (f : Nat → ℚ) (i : Nat) :
    (mkPage pa pb f i).page = i + 1 := by
  unfold mkPage
  split <;> rfl

theorem mkPage_score (pa pb : List String) (f : Nat → ℚ) (i : Nat) :
    (mkPage pa pb f i).ssim_score = scoreAt pa pb f i := by
  unfold mkPage scoreAt
  split <;> rfl

theorem process_ok_inner (name : String) (env : FileEnv)
    (hok : (process_one_file name env).ok = true) :
    _process_one_file_inner { name := name } env = .ok (process_one_file name env) := by
  unfold process_one_file at hok ⊢
  split at hok
  · rename_i r0 hinner
    rw [hinner]
  · simp at hok

theorem inner_ok_of_ok (name : String) (env : FileEnv) (r : FileReport)
    (h : _process_one_file_inner { name := name } env = .ok r) (hok : r.ok = true) :
    ∃ pa pb : List String,
      env.origPdfExists = true ∧ env.rtPdfExists = true ∧
      env.origRender = .ok pa ∧ env.rtRender = .ok pb ∧ pa ≠ [] ∧ pb ≠ [] ∧
      r.name = name ∧ r.error = "" ∧
      r.pages = (List.range' 0 (max pa.length pb.length)).map
        (mkPage pa pb (stepVal env.step)) ∧
      r.min_ssim = minScores ((List.range' 0 (max pa.length pb.length)).map
        (scoreAt pa pb (stepVal env.step))) ∧
      r.mean_ssim = meanScores ((List.range' 0 (max pa.length pb.length)).map
        (scoreAt pa pb (stepVal env.step))) := by
  unfold _process_one_file_inner at h
  split at h
  · simp only [Except.ok.injEq] at h
    rw [← h] at hok
    simp at hok
  · split at h
    · simp only [Except.ok.injEq] at h
      rw [← h] at hok
      simp at hok
    · rename_i h1 h2
      split at h
      · simp only [Except.ok.injEq] at h
        rw [← h] at hok
        simp at hok
      · exact absurd h (by simp)
      · rename_i pa hpa
        split at h
        · simp only [Except.ok.injEq] at h
          rw [← h] at hok
          simp at hok
        · exact absurd h (by simp)
        · rename_i pb hpb
          split at h
          · simp only [Except.ok.injEq] at h
            rw [← h] at hok
            simp at hok
          · rename_i hpane
            split at h
            · simp only [Except.ok.injEq] at h
              rw [← h] at hok
              simp at hok
            · rename_i hpbne
              split at h
              · exact absurd h (by simp)
              · rename_i pgs scs hloop
                simp only [Except.ok.injEq] at h
                refine ⟨pa, pb, by simpa using h1, by simpa using h2,
                  hpa, hpb, hpane, hpbne, ?_⟩
                obtain ⟨hpgs, hscs⟩ :=
                  pageLoop_run pa pb env.step (max pa.length pb.length) pgs scs hloop
                rw [← h]
                exact ⟨rfl, rfl, by rw [hpgs], by rw [hscs], by rw [hscs]⟩

theorem process_one_file_run (name : String) (env : FileEnv)
    (pa pb : List String) (f : Nat → ℚ)
    (h1 : env.origPdfExists = true) (h2 : env.rtPdfExists = true)
    (h3 : env.origRender = .ok pa) (h4 : env.rtRender = .ok pb)
    (h5 : pa ≠ []) (h6 : pb ≠ [])
    (hstep : ∀ i, i < pa.length → i < pb.length → env.step i = .ok (f i)) :
    process_one_file name env =
      { name := name, ok := true, error := "",
        pages := (List.range' 0 (max pa.length pb.length)).map (mkPage pa pb f),
        min_ssim := minScores ((List.range' 0 (max pa.length pb.length)).map
          (scoreAt pa pb f)),
        mean_ssim := meanScores ((List.range' 0 (max pa.length pb.length)).map
          (scoreAt pa pb f)) } := by
  have hloop := pageLoop_eq_ok pa pb env.step f (max pa.length pb.length) 0 [] []
    (fun i _ _ hi3 hi4 => hstep i hi3 hi4)
  unfold process_one_file _process_one_file_inner
  rw [h3, h4]
  simp only [h1, h2]
  rw [if_neg h5, if_neg h6, hloop]
  simp

/-- C1: the exit status is 0 exactly when every report in the final
collection has `ok = true` and `min_ssim` at or above the threshold, and a
non-zero status otherwise; an empty collection exits 0 (vacuously). -/
theorem C1_exit_status_zero_iff_all_pass (reports : List FileReport) (thr : ℚ) :
    (exitCode reports thr = 0 ↔ ∀ r ∈ reports, r.ok = true ∧ thr ≤ r.min_ssim) ∧
    exitCode [] thr = 0 := by
  constructor
  · unfold exitCode
    split
    · rename_i hsplit
      constructor
      · intro h; exact absurd h (by simp)
      · intro hall
        exfalso
        rcases hsplit with hb | he
        · rw [ne_eq, List.filter_eq_nil_iff] at hb
          push_neg at hb
          obtain ⟨r, hr, hp⟩ := hb
          have := hall r hr
          simp [this.1] at hp
          exact absurd this.2 (by simpa using hp)
        · rw [ne_eq, List.filter_eq_nil_iff] at he
          push_neg at he
          obtain ⟨r, hr, hp⟩ := he
          have := hall r hr
          simp [this.1] at hp
      
    · rename_i hsplit
      push_neg at hsplit
      obtain ⟨hb, he⟩ := hsplit
      rw [List.filter_eq_nil_iff] at hb he
      constructor
      · intro _ r hr
        have h1 := hb r hr
        have h2 := he r hr
        simp at h1 h2
        exact ⟨h2, by simpa [h2] using h1⟩
      · intro; rfl
  · rfl

/-- Witness for C1 at a concrete passing report. -/
theorem C1_exit_status_witness :
    exitCode [{ name := "a.docx" }] (49 / 50) = 0 :=
  (C1_exit_status_zero_iff_all_pass [{ name := "a.docx" }] (49 / 50)).1.mpr (by
    intro r hr
    rw [List.mem_singleton] at hr
    subst hr
    exact ⟨rfl, by norm_num⟩)

/-- Counterexample to C2 as stated: an exception raised by the second
loop iteration (after page 1 was appended to the shared report object)
yields a report with `ok = false` whose pages are NOT empty, and whose
error is the exception's message, which here is empty. -/
theorem C2_counterexample_exception_keeps_pages :
    (process_one_file "a.docx" C2cexEnv).ok = false ∧
    (process_one_file "a.docx" C2cexEnv).pages ≠ [] ∧
    (process_one_file "a.docx" C2cexEnv).error = "" := by decide

/-- C2 (amended): every failed report that `_process_one_file_inner`
returns normally (missing PDF, renderer `CalledProcessError`, zero pages)
carries a non-empty error and an empty page sequence; reports failed by
an exception escaping to `process_one_file`'s handlers are not covered,
since they keep the pages appended before the raise and may carry an
empty message. -/
theorem C2_inner_failed_report_has_error_and_no_pages (name : String) (env : FileEnv) (r : FileReport)
    (h : _process_one_file_inner { name := name } env = .ok r)
    (hfail : r.ok = false) :
    r.error ≠ "" ∧ r.pages = [] := by
  have hpref : ∀ m : String, "pdftoppm failed: " ++ m ≠ "" := by
    intro m hcon
    have hl := congrArg String.length hcon
    simp [String.length_append] at hl
    exact absurd hl.1 (by decide)
  unfold _process_one_file_inner at h
  split at h
  · simp only [Except.ok.injEq] at h
    rw [← h]
    exact ⟨(by decide :
      "original PDF missing (LibreOffice conversion likely failed)" ≠ ""), rfl⟩
  · split at h
    · simp only [Except.ok.injEq] at h
      rw [← h]
      exact ⟨(by decide :
        "roundtrip PDF missing (LibreOffice conversion likely failed)" ≠ ""), rfl⟩
    · split at h
      · simp only [Except.ok.injEq] at h
        rw [← h]
        exact ⟨hpref _, rfl⟩
      · exact absurd h (by simp)
      · split at h
        · simp only [Except.ok.injEq] at h
          rw [← h]
          exact ⟨hpref _, rfl⟩
        · exact absurd h (by simp)
        · split at h
          · simp only [Except.ok.injEq] at h
            rw [← h]
            exact ⟨(by decide : "original PDF produced no pages" ≠ ""), rfl⟩
          · split at h
            · simp only [Except.ok.injEq] at h
              rw [← h]
              exact ⟨(by decide : "roundtrip PDF produced no pages" ≠ ""), rfl⟩
            · split at h
              · exact absurd h (by simp)
              · simp only [Except.ok.injEq] at h
                rw [← h] at hfail
                simp at hfail

/-- Witness for C2 (amended) at the missing-original-PDF environment. -/
theorem C2_inner_failed_report_witness :
    ({ name := "a.docx", ok := false,
       error := "original PDF missing (LibreOffice conversion likely failed)",
       pages := [], min_ssim := 1, mean_ssim := 1 } : FileReport).ok = false ∧
    ({ name := "a.docx", ok := false,
       error := "original PDF missing (LibreOffice conversion likely failed)",
       pages := [], min_ssim := 1, mean_ssim := 1 } : FileReport).error ≠ "" ∧
    ({ name := "a.docx", ok := false,
       error := "original PDF missing (LibreOffice conversion likely failed)",
       pages := [], min_ssim := 1, mean_ssim := 1 } : FileReport).pages = [] :=
  ⟨rfl,
    C2_inner_failed_report_has_error_and_no_pages "a.docx" C2missingEnv _ rfl rfl⟩

/-- C3: on two grayscale images of different shapes, `compute_ssim`
applies the SSIM metric to both images padded with white (255) to the
element-wise maximum of the two shapes, aligned at the top-left origin
(so the metric's equal-shape precondition is restored and no shape error
can occur), and the returned score lies in [0,1] whenever the metric
does on equal-shaped inputs. -/
theorem C3_shape_mismatch_padded_before_scoring (ssimFn : GrayImage → GrayImage → ℚ)
    (hr : ∀ x y : GrayImage, x.h = y.h → x.w = y.w →
      0 ≤ ssimFn x y ∧ ssimFn x y ≤ 1)
    (a b : GrayImage) (hne : ¬(a.h = b.h ∧ a.w = b.w)) :
    compute_ssim ssimFn a b =
      ssimFn (padTo a (max a.h b.h) (max a.w b.w)) (padTo b (max a.h b.h) (max a.w b.w)) ∧
    (padTo a (max a.h b.h) (max a.w b.w)).h = (padTo b (max a.h b.h) (max a.w b.w)).h ∧
    (padTo a (max a.h b.h) (max a.w b.w)).w = (padTo b (max a.h b.h) (max a.w b.w)).w ∧
    (∀ i j, i < a.h → j < a.w →
      (padTo a (max a.h b.h) (max a.w b.w)).px i j = a.px i j) ∧
    (∀ i j, ¬(i < a.h ∧ j < a.w) →
      (padTo a (max a.h b.h) (max a.w b.w)).px i j = 255) ∧
    (∀ i j, i < b.h → j < b.w →
      (padTo b (max a.h b.h) (max a.w b.w)).px i j = b.px i j) ∧
    (∀ i j, ¬(i < b.h ∧ j < b.w) →
      (padTo b (max a.h b.h) (max a.w b.w)).px i j = 255) ∧
    0 ≤ compute_ssim ssimFn a b ∧ compute_ssim ssimFn a b ≤ 1 := by
  have hceq : compute_ssim ssimFn a b =
      ssimFn (padTo a (max a.h b.h) (max a.w b.w)) (padTo b (max a.h b.h) (max a.w b.w)) := by
    unfold compute_ssim
    rw [if_neg hne]
  have hrange := hr (padTo a (max a.h b.h) (max a.w b.w))
    (padTo b (max a.h b.h) (max a.w b.w)) rfl rfl
  refine ⟨hceq, rfl, rfl, ?_, ?_, ?_, ?_, ?_, ?_⟩
  · intro i j hi hj
    simp [padTo, hi, hj]
  · intro i j hnot
    simp only [padTo]
    rw [if_neg hnot]
  · intro i j hi hj
    simp [padTo, hi, hj]
  · intro i j hnot
    simp only [padTo]
    rw [if_neg hnot]
  · rw [hceq]; exact hrange.1
  · rw [hceq]; exact hrange.2

/-- Witness for C3 at a concrete 2x3 vs 4x2 image pair. -/
theorem C3_shape_mismatch_witness :
    compute_ssim ssimHalf imgA imgB =
      ssimHalf (padTo imgA (max imgA.h imgB.h) (max imgA.w imgB.w))
        (padTo imgB (max imgA.h imgB.h) (max imgA.w imgB.w)) ∧
    (padTo imgA (max imgA.h imgB.h) (max imgA.w imgB.w)).h =
      (padTo imgB (max imgA.h imgB.h) (max imgA.w imgB.w)).h ∧
    (padTo imgA (max imgA.h imgB.h) (max imgA.w imgB.w)).w =
      (padTo imgB (max imgA.h imgB.h) (max imgA.w imgB.w)).w ∧
    (∀ i j, i < imgA.h → j < imgA.w →
      (padTo imgA (max imgA.h imgB.h) (max imgA.w imgB.w)).px i j = imgA.px i j) ∧
    (∀ i j, ¬(i < imgA.h ∧ j < imgA.w) →
      (padTo imgA (max imgA.h imgB.h) (max imgA.w imgB.w)).px i j = 255) ∧
    (∀ i j, i < imgB.h → j < imgB.w →
      (padTo imgB (max imgA.h imgB.h) (max imgA.w imgB.w)).px i j = imgB.px i j) ∧
    (∀ i j, ¬(i < imgB.h ∧ j < imgB.w) →
      (padTo imgB (max imgA.h imgB.h) (max imgA.w imgB.w)).px i j = 255) ∧
    0 ≤ compute_ssim ssimHalf imgA imgB ∧ compute_ssim ssimHalf imgA imgB ≤ 1 :=
  C3_shape_mismatch_padded_before_scoring ssimHalf (fun _ _ _ _ => ⟨by norm_num [ssimHalf], by norm_num [ssimHalf]⟩) imgA
    imgB (by decide)

/-- C4: when the two page sequences have different lengths, the loop
covers indices 0 .. max(countA, countB)-1, every index present on only
one side gets a PageResult with score exactly 0 and an empty reference
for the missing side, and those zeros enter aggregation, forcing
`min_ssim = 0` no matter how similar the overlapping pages are. -/
theorem C4_page_count_mismatch_forces_zero_min (name : String) (env : FileEnv) (pa pb : List String) (f : Nat → ℚ)
    (h1 : env.origPdfExists = true) (h2 : env.rtPdfExists = true)
    (h3 : env.origRender = .ok pa) (h4 : env.rtRender = .ok pb)
    (h5 : pa ≠ []) (h6 : pb ≠ []) (hlen : pa.length ≠ pb.length)
    (hstep : ∀ i, i < pa.length → i < pb.length →
      env.step i = .ok (f i) ∧ 0 ≤ f i) :
    (process_one_file name env).pages.length = max pa.length pb.length ∧
    (∀ (i : Nat) (hi : i < (process_one_file name env).pages.length),
      min pa.length pb.length ≤ i →
        ((process_one_file name env).pages.get ⟨i, hi⟩).ssim_score = 0 ∧
        (pa.length ≤ i →
          ((process_one_file name env).pages.get ⟨i, hi⟩).orig_png = "") ∧
        (pb.length ≤ i →
          ((process_one_file name env).pages.get ⟨i, hi⟩).rt_png = "")) ∧
    (process_one_file name env).min_ssim = 0 := by
  have hrun := process_one_file_run name env pa pb f h1 h2 h3 h4 h5 h6
    (fun i hi hj => (hstep i hi hj).1)
  rw [hrun]
  dsimp only
  refine ⟨by simp, ?_, ?_⟩
  · intro i hi hminle
    have hmis : pa.length ≤ i ∨ pb.length ≤ i := by
      rcases Nat.le_total pa.length pb.length with hab | hab
      · exact Or.inl (le_trans (le_of_eq (Nat.min_eq_left hab).symm) hminle)
      · exact Or.inr (le_trans (le_of_eq (Nat.min_eq_right hab).symm) hminle)
    have hget : (List.map (mkPage pa pb f)
        (List.range' 0 (max pa.length pb.length))).get ⟨i, hi⟩ = mkPage pa pb f i := by
      simp only [List.get_eq_getElem, Fin.getElem_fin, List.getElem_map,
        List.getElem_range']
      congr 1
      omega
    rw [hget, mkPage, if_pos hmis]
    refine ⟨rfl, ?_, ?_⟩
    · intro hle
      exact List.getD_eq_default pa "" hle
    · intro hle
      exact List.getD_eq_default pb "" hle
  · apply minScores_eq_zero
    · rw [List.mem_map]
      refine ⟨min pa.length pb.length, ?_, ?_⟩
      · rw [List.mem_range']
        exact ⟨min pa.length pb.length, min_lt_max.mpr hlen, by omega⟩
      · rw [scoreAt, if_pos]
        rcases Nat.le_total pa.length pb.length with hab | hab
        · exact Or.inl (le_of_eq (Nat.min_eq_left hab).symm)
        · exact Or.inr (le_of_eq (Nat.min_eq_right hab).symm)
    · intro x hx
      rw [List.mem_map] at hx
      obtain ⟨i, _, hxi⟩ := hx
      rw [← hxi, scoreAt]
      split
      · exact le_refl 0
      · rename_i hno
        push_neg at hno
        exact (hstep i hno.1 hno.2).2

/-- Witness for C4 with two original pages and one roundtrip page. -/
theorem C4_page_count_mismatch_witness :
    (process_one_file "a.docx" C4wEnv).pages.length =
      max (["o1.png", "o2.png"] : List String).length
        (["r1.png"] : List String).length ∧
    (∀ (i : Nat) (hi : i < (process_one_file "a.docx" C4wEnv).pages.length),
      min (["o1.png", "o2.png"] : List String).length
          (["r1.png"] : List String).length ≤ i →
        ((process_one_file "a.docx" C4wEnv).pages.get ⟨i, hi⟩).ssim_score = 0 ∧
        ((["o1.png", "o2.png"] : List String).length ≤ i →
          ((process_one_file "a.docx" C4wEnv).pages.get ⟨i, hi⟩).orig_png = "") ∧
        ((["r1.png"] : List String).length ≤ i →
          ((process_one_file "a.docx" C4wEnv).pages.get ⟨i, hi⟩).rt_png = "")) ∧
    (process_one_file "a.docx" C4wEnv).min_ssim = 0 :=
  C4_page_count_mismatch_forces_zero_min "a.docx" C4wEnv ["o1.png", "o2.png"] ["r1.png"] (fun _ => 1)
    rfl rfl rfl rfl (by decide) (by decide) (by decide)
    (fun _ _ _ => ⟨rfl, by norm_num⟩)

/-- C5: a report returned with `ok = true` has `min_ssim` equal to the
minimum and `mean_ssim` equal to the arithmetic mean (sum over length)
of the `ssim_score` values of its PageResults, and both fields are 1
when the page sequence is empty. -/
theorem C5_min_mean_aggregation (name : String) (env : FileEnv)
    (hok : (process_one_file name env).ok = true) :
    (process_one_file name env).min_ssim =
      minScores ((process_one_file name env).pages.map PageResult.ssim_score) ∧
    (process_one_file name env).mean_ssim =
      meanScores ((process_one_file name env).pages.map PageResult.ssim_score) ∧
    ((process_one_file name env).pages ≠ [] →
      (process_one_file name env).min_ssim ∈
        (process_one_file name env).pages.map PageResult.ssim_score ∧
      (∀ q ∈ (process_one_file name env).pages.map PageResult.ssim_score,
        (process_one_file name env).min_ssim ≤ q) ∧
      (process_one_file name env).mean_ssim *
          ((process_one_file name env).pages.map PageResult.ssim_score).length =
        ((process_one_file name env).pages.map PageResult.ssim_score).sum) ∧
    ((process_one_file name env).pages = [] →
      (process_one_file name env).min_ssim = 1 ∧
      (process_one_file name env).mean_ssim = 1) := by
  obtain ⟨pa, pb, h1, h2, h3, h4, hpane, hpbne, hname, herr, hpages, hmin, hmean⟩ :=
    inner_ok_of_ok name env _ (process_ok_inner name env hok) hok
  have hmap : (process_one_file name env).pages.map PageResult.ssim_score =
      (List.range' 0 (max pa.length pb.length)).map (scoreAt pa pb (stepVal env.step)) := by
    rw [hpages, List.map_map]
    exact List.map_congr_left (fun i _ => mkPage_score pa pb (stepVal env.step) i)
  have hmin' : (process_one_file name env).min_ssim =
      minScores ((process_one_file name env).pages.map PageResult.ssim_score) := by
    rw [hmap, hmin]
  have hmean' : (process_one_file name env).mean_ssim =
      meanScores ((process_one_file name env).pages.map PageResult.ssim_score) := by
    rw [hmap, hmean]
  refine ⟨hmin', hmean', ?_, ?_⟩
  · intro hne
    have hne' : (process_one_file name env).pages.map PageResult.ssim_score ≠ [] := by
      simpa using hne
    refine ⟨?_, ?_, ?_⟩
    · rw [hmin']
      exact minScores_mem _ hne'
    · intro q hq
      rw [hmin']
      exact minScores_le_mem _ q hq
    · rw [hmean', meanScores, if_neg hne']
      have hlen : ((((process_one_file name env).pages.map
          PageResult.ssim_score).length : Nat) : ℚ) ≠ 0 :=
        Nat.cast_ne_zero.mpr (List.length_pos.mpr hne').ne'
      exact div_mul_cancel₀ _ hlen
  · intro hnil
    rw [hmin', hmean', hnil]
    simp [minScores, meanScores]

/-- Witness for C5 on a concrete successful two-vs-one-page run. -/
theorem C5_min_mean_aggregation_witness :
    (process_one_file "a.docx" C4wEnv).ok = true ∧
    ((process_one_file "a.docx" C4wEnv).min_ssim =
      minScores ((process_one_file "a.docx" C4wEnv).pages.map PageResult.ssim_score) ∧
    (process_one_file "a.docx" C4wEnv).mean_ssim =
      meanScores ((process_one_file "a.docx" C4wEnv).pages.map PageResult.ssim_score) ∧
    ((process_one_file "a.docx" C4wEnv).pages ≠ [] →
      (process_one_file "a.docx" C4wEnv).min_ssim ∈
        (process_one_file "a.docx" C4wEnv).pages.map PageResult.ssim_score ∧
      (∀ q ∈ (process_one_file "a.docx" C4wEnv).pages.map PageResult.ssim_score,
        (process_one_file "a.docx" C4wEnv).min_ssim ≤ q) ∧
      (process_one_file "a.docx" C4wEnv).mean_ssim *
          ((process_one_file "a.docx" C4wEnv).pages.map PageResult.ssim_score).length =
        ((process_one_file "a.docx" C4wEnv).pages.map PageResult.ssim_score).sum) ∧
    ((process_one_file "a.docx" C4wEnv).pages = [] →
      (process_one_file "a.docx" C4wEnv).min_ssim = 1 ∧
      (process_one_file "a.docx" C4wEnv).mean_ssim = 1)) :=
  ⟨by decide, C5_min_mean_aggregation "a.docx" C4wEnv (by decide)⟩

/-- Counterexample to C6 as stated: the pre-populated report for a
manifest entry with `ok = false` carries the error string
"roundtrip failed (Go)", not "roundtrip failed". -/
theorem C6_counterexample_error_string :
    (runBatch 4 C6cexBatch).map FileReport.name = ["A.docx"] ∧
    (runBatch 4 C6cexBatch).map FileReport.error = ["roundtrip failed (Go)"] ∧
    ¬((runBatch 4 C6cexBatch).map FileReport.error = ["roundtrip failed"]) := by
  decide

/-- C6 (amended): every manifest entry with `ok = false` yields a failed
FileReport with error "roundtrip failed (Go)" in the batch output, and
its name is excluded from `compare_names`, so the per-file comparator is
never invoked on it (no rendering or scoring is attempted). -/
theorem C6_manifest_failures_short_circuited (benv : BatchEnv) (workers : Nat) (e : ManifestEntry)
    (hmem : e ∈ benv.manifest) (hfail : e.ok = false) :
    ({ name := e.name, ok := false, error := "roundtrip failed (Go)",
       pages := [], min_ssim := 1, mean_ssim := 1 } : FileReport)
        ∈ runBatch workers benv ∧
    e.name ∉ compare_names benv.manifest := by
  have hnf : e.name ∈ failed_rt benv.manifest := by
    unfold failed_rt
    exact List.mem_map.mpr ⟨e, List.mem_filter.mpr ⟨hmem, by simp [hfail]⟩, rfl⟩
  constructor
  · unfold runBatch
    refine List.mem_append.mpr (Or.inl ?_)
    refine List.mem_map.mpr ⟨e.name, ?_, rfl⟩
    exact List.mem_filter.mpr
      ⟨List.mem_map.mpr ⟨e, hmem, rfl⟩, by simp [hnf]⟩
  · unfold compare_names
    intro hcon
    have hflt := (List.mem_filter.mp hcon).2
    simp [hnf] at hflt

/-- Witness for C6 (amended) on a one-entry failed manifest. -/
theorem C6_manifest_failures_witness :
    ({ name := "A.docx", ok := false, error := "roundtrip failed (Go)",
       pages := [], min_ssim := 1, mean_ssim := 1 } : FileReport)
        ∈ runBatch 4 C6cexBatch ∧
    ¬("A.docx" ∈ compare_names C6cexBatch.manifest) :=
  C6_manifest_failures_short_circuited C6cexBatch 4 { name := "A.docx", ok := false }
    (by decide) rfl

/-- Counterexample to C7 as stated: a renderer `CalledProcessError` with
message "boom" is converted to a failed report whose error is
"pdftoppm failed: boom", not the exception's message itself. -/
theorem C7_counterexample_renderer_error_message :
    (process_one_file "a.docx" C7cexEnv).ok = false ∧
    (process_one_file "a.docx" C7cexEnv).error = "pdftoppm failed: boom" ∧
    ¬((process_one_file "a.docx" C7cexEnv).error =
        Exc.strMsg (.calledProcessError "boom")) := by
  decide

/-- C7 (amended): every exception escaping `_process_one_file_inner` is
caught by `process_one_file` and converted into a returned report with
`ok = false` whose error is `handler_error` of the exception: the
exception's message for a generic exception, and the fixed string
"out of memory (image too large)" for MemoryError; the report keeps the
pages accumulated before the raise, and no exception propagates.
(A renderer `CalledProcessError` is instead caught inside the comparator
with a "pdftoppm failed: " prefix on the message.) -/
theorem C7_escaping_exception_becomes_failed_report (name : String) (env : FileEnv) (e : Exc) (p : FileReport)
    (h : _process_one_file_inner { name := name } env = .error (e, p)) :
    process_one_file name env =
      { p with ok := false, error := handler_error e } ∧
    (process_one_file name env).ok = false ∧
    (process_one_file name env).error = handler_error e ∧
    (process_one_file name env).pages = p.pages ∧
    handler_error .memoryError = "out of memory (image too large)" ∧
    (∀ m : String, handler_error (.other m) = m) := by
  unfold process_one_file
  rw [h]
  exact ⟨rfl, rfl, rfl, rfl, rfl, fun m => rfl⟩

/-- Witness for C7 (amended) at a MemoryError raised by the renderer. -/
theorem C7_escaping_exception_witness :
    process_one_file "a.docx" C7memEnv =
      { ({ name := "a.docx" } : FileReport) with
        ok := false
        error := handler_error .memoryError } ∧
    (process_one_file "a.docx" C7memEnv).ok = false ∧
    (process_one_file "a.docx" C7memEnv).error = handler_error .memoryError ∧
    (process_one_file "a.docx" C7memEnv).pages =
      ({ name := "a.docx" } : FileReport).pages ∧
    handler_error .memoryError = "out of memory (image too large)" ∧
    (∀ m : String, handler_error (.other m) = m) :=
  C7_escaping_exception_becomes_failed_report "a.docx" C7memEnv .memoryError { name := "a.docx" } rfl

/-- C8: when either input dimension exceeds the 4000 px cap, the loader's
output dimensions are scaled so that the longer side equals the cap and
both sides are at most the cap; when both dimensions are within the cap
the image keeps its original size. -/
theorem C8_loader_caps_dimensions (w h : Nat) :
    ((MAX_SSIM_SIDE < w ∨ MAX_SSIM_SIDE < h) →
      max (_load_gray_size w h).1 (_load_gray_size w h).2 = MAX_SSIM_SIDE ∧
      (_load_gray_size w h).1 ≤ MAX_SSIM_SIDE ∧
      (_load_gray_size w h).2 ≤ MAX_SSIM_SIDE) ∧
    (w ≤ MAX_SSIM_SIDE ∧ h ≤ MAX_SSIM_SIDE → _load_gray_size w h = (w, h)) := by
  constructor
  · intro hbig
    have hm : 0 < max w h := by
      rcases hbig with hw | hh
      · exact lt_of_lt_of_le (Nat.lt_of_le_of_lt (Nat.zero_le _) hw) (le_max_left w h)
      · exact lt_of_lt_of_le (Nat.lt_of_le_of_lt (Nat.zero_le _) hh) (le_max_right w h)
    have hres : _load_gray_size w h =
        (w * MAX_SSIM_SIDE / max w h, h * MAX_SSIM_SIDE / max w h) := by
      unfold _load_gray_size
      rw [if_pos hbig]
    have hwle : w * MAX_SSIM_SIDE / max w h ≤ MAX_SSIM_SIDE := by
      calc w * MAX_SSIM_SIDE / max w h ≤ max w h * MAX_SSIM_SIDE / max w h :=
            Nat.div_le_div_right (Nat.mul_le_mul_right _ (le_max_left w h))
        _ = MAX_SSIM_SIDE := Nat.mul_div_cancel_left _ hm
    have hhle : h * MAX_SSIM_SIDE / max w h ≤ MAX_SSIM_SIDE := by
      calc h * MAX_SSIM_SIDE / max w h ≤ max w h * MAX_SSIM_SIDE / max w h :=
            Nat.div_le_div_right (Nat.mul_le_mul_right _ (le_max_right w h))
        _ = MAX_SSIM_SIDE := Nat.mul_div_cancel_left _ hm
    have hmax : max (w * MAX_SSIM_SIDE / max w h) (h * MAX_SSIM_SIDE / max w h) =
        MAX_SSIM_SIDE := by
      rcases Nat.le_total w h with hle | hle
      · have h1 : max w h = h := Nat.max_eq_right hle
        have : h * MAX_SSIM_SIDE / max w h = MAX_SSIM_SIDE := by
          rw [h1]; exact Nat.mul_div_cancel_left _ (h1 ▸ hm)
        rw [Nat.max_eq_right (le_of_le_of_eq hwle this.symm), this]
      · have h1 : max w h = w := Nat.max_eq_left hle
        have : w * MAX_SSIM_SIDE / max w h = MAX_SSIM_SIDE := by
          rw [h1]; exact Nat.mul_div_cancel_left _ (h1 ▸ hm)
        rw [Nat.max_eq_left (le_of_le_of_eq hhle this.symm), this]
    rw [hres]
    exact ⟨hmax, hwle, hhle⟩
  · intro ⟨hw, hh⟩
    unfold _load_gray_size
    rw [if_neg]
    push_neg
    exact ⟨hw, hh⟩

/-- Witness for C8 at a 5000x100 image. -/
theorem C8_loader_caps_dimensions_witness :
    (MAX_SSIM_SIDE < 5000 ∨ MAX_SSIM_SIDE < 100) ∧
    (max (_load_gray_size 5000 100).1 (_load_gray_size 5000 100).2 = MAX_SSIM_SIDE ∧
      (_load_gray_size 5000 100).1 ≤ MAX_SSIM_SIDE ∧
      (_load_gray_size 5000 100).2 ≤ MAX_SSIM_SIDE) :=
  ⟨by decide, (C8_loader_caps_dimensions 5000 100).1 (by decide)⟩

/-- C9: the `--workers` parameter has no effect on the computed reports
or their deterministic sorted order: worker counts 1 and 4 produce
identical batch output (hence identical HTML rows and JSON summary). -/
theorem C9_worker_count_has_no_effect (benv : BatchEnv) :
    runBatch 1 benv = runBatch 4 benv ∧
    sortReports (runBatch 1 benv) = sortReports (runBatch 4 benv) :=
  ⟨rfl, rfl⟩

/-- C10: every report returned with `ok = true` has a non-empty page
sequence whose page numbers are exactly 1, 2, ..., n in order; a
rendering with zero pages on either side never reaches the success path,
so the `min/mean` default of 1.0 for an empty score list is unreachable
there. -/
theorem C10_ok_report_pages_numbered_from_one (name : String) (env : FileEnv)
    (hok : (process_one_file name env).ok = true) :
    (process_one_file name env).pages ≠ [] ∧
    ∀ (i : Nat) (hi : i < (process_one_file name env).pages.length),
      ((process_one_file name env).pages.get ⟨i, hi⟩).page = i + 1 := by
  obtain ⟨pa, pb, h1, h2, h3, h4, hpane, hpbne, hname, herr, hpages, hmin, hmean⟩ :=
    inner_ok_of_ok name env _ (process_ok_inner name env hok) hok
  constructor
  · rw [hpages]
    intro hcon
    have hlen := congrArg List.length hcon
    simp only [List.length_map, List.length_range', List.length_nil] at hlen
    have : pa.length = 0 := by omega
    exact hpane (List.eq_nil_of_length_eq_zero this)
  · intro i hi
    revert hi
    rw [hpages]
    intro hi
    simp only [List.get_eq_getElem, Fin.getElem_fin, List.getElem_map,
      List.getElem_range', mkPage_page]
    omega

/-- Witness for C10 on a concrete successful run. -/
theorem C10_ok_report_pages_numbered_witness :
    (process_one_file "a.docx" C4wEnv).ok = true ∧
    ((process_one_file "a.docx" C4wEnv).pages ≠ [] ∧
    ∀ (i : Nat) (hi : i < (process_one_file "a.docx" C4wEnv).pages.length),
      ((process_one_file "a.docx" C4wEnv).pages.get ⟨i, hi⟩).page = i + 1) :=
  ⟨by decide, C10_ok_report_pages_numbered_from_one "a.docx" C4wEnv (by decide)⟩
